import Mathlib

/-!
Shallow embedding of googlemaps/common.py: the Context credential/timeout
holder, URL signing (API-key and enterprise HMAC-SHA1 modes), and the
_get retry loop, together with theorems checking the specification
claims against this embedding.
-/

set_option maxHeartbeats 1000000

namespace GMaps

/-- Python truthiness of an optional string value: None and the empty
string are falsy, every other string is truthy. -/
def truthyStr (s : Option String) : Bool :=
  match s with
  | none => false
  | some v => !(v == "")

/-- Python truthiness of an optional integer value: None and 0 are falsy. -/
def truthyInt (x : Option Int) : Bool :=
  match x with
  | none => false
  | some v => !(v == 0)

/-- The timeout stored on a Context: either the single timeout value as
passed (possibly None), or the (connect_timeout, read_timeout) pair. -/
inductive TimeoutVal where
  | single (t : Option Int)
  | pair (connect : Int) (read : Int)
deriving DecidableEq, Repr

/-- State held between requests, mirroring the fields assigned by
Context.__init__ in googlemaps/common.py: key, client_id, client_secret,
timeout, retry_timeout (a timedelta, modelled in integer seconds). -/
structure Context where
  key : Option String
  client_id : Option String
  client_secret : Option String
  timeout : TimeoutVal
  retry_timeout : Int
deriving DecidableEq, Repr

/-- Errors raised by Context.__init__. -/
inductive InitError where
  | valueError (msg : String)
  | notImplementedError (msg : String)
deriving DecidableEq, Repr

/-- Python str.startswith test over character lists. -/
def charsStartWith : List Char → List Char → Bool
  | _, [] => true
  | [], _ :: _ => false
  | c :: cs, p :: ps => c == p && charsStartWith cs ps

/-- Python str.startswith: the first characters of the string equal the
given leading string. -/
def startswith (s lead : String) : Bool :=
  charsStartWith s.toList lead.toList

/-- Translation of Context.__init__ (googlemaps/common.py lines 83-108).
The check of the installed requests library version at lines 97-101 is
environmental, so its outcome is passed in as the boolean parameter
requests_version_ok (true when the check concludes the version is at
least 2.4.0, so no NotImplementedError is raised). All other conditions
follow Python truthiness of the arguments. -/
def Context.init (key client_id client_secret : Option String)
    (timeout connect_timeout read_timeout : Option Int)
    (retry_timeout : Int) (requests_version_ok : Bool) :
    Except InitError Context :=
  if !truthyStr key && !(truthyStr client_secret && truthyStr client_id) then
    .error (.valueError "Must provide API key or enterprise credentials with context object.")
  else if truthyStr key && !(startswith (key.getD "") "AIza") then
    .error (.valueError "Invalid API key provided.")
  else if truthyInt timeout && (truthyInt connect_timeout || truthyInt read_timeout) then
    .error (.valueError "Specify either timeout, or connect_timeout and read_timeout")
  else if truthyInt connect_timeout && truthyInt read_timeout then
    if !requests_version_ok then
      .error (.notImplementedError "Connect/Read timeouts require requests v2.4.0 or higher")
    else
      .ok { key := key, client_id := client_id, client_secret := client_secret,
            timeout := .pair (connect_timeout.getD 0) (read_timeout.getD 0),
            retry_timeout := retry_timeout }
  else
    .ok { key := key, client_id := client_id, client_secret := client_secret,
          timeout := .single timeout,
          retry_timeout := retry_timeout }

/-- Holds when construction returned a Context. -/
def initOk (r : Except InitError Context) : Bool :=
  match r with
  | .ok _ => true
  | .error _ => false

/-- Holds when construction raised a ValueError. -/
def isValueError (r : Except InitError Context) : Bool :=
  match r with
  | .error (.valueError _) => true
  | _ => false

/-- UTF-8 encoding of a single character as byte values, as performed by
str.encode in Python. -/
def utf8EncodeCharNat (c : Char) : List Nat :=
  let n := c.toNat
  if n < 128 then [n]
  else if n < 2048 then [192 + n / 64, 128 + n % 64]
  else if n < 65536 then [224 + n / 4096, 128 + n / 64 % 64, 128 + n % 64]
  else [240 + n / 262144, 128 + n / 4096 % 64, 128 + n / 64 % 64, 128 + n % 64]

/-- UTF-8 encoding of a string as a list of byte values. -/
def utf8Bytes (s : String) : List Nat :=
  (s.toList.map utf8EncodeCharNat).flatten

/-- Uppercase hexadecimal digit. -/
def hexUpper (n : Nat) : Char :=
  "0123456789ABCDEF".toList.getD n '0'

/-- Percent-encoding of one byte as performed by urllib quote_plus: space
becomes a plus sign, unreserved bytes (letters, digits, underscore, dot,
hyphen, tilde) stand for themselves, everything else is percent-escaped. -/
def quoteByte (b : Nat) : List Char :=
  if b = 32 then ['+']
  else if (65 ≤ b ∧ b ≤ 90) ∨ (97 ≤ b ∧ b ≤ 122) ∨ (48 ≤ b ∧ b ≤ 57) ∨
      b = 45 ∨ b = 46 ∨ b = 95 ∨ b = 126 then [Char.ofNat b]
  else ['%', hexUpper (b / 16), hexUpper (b % 16)]

/-- urllib.parse.quote_plus on a string, over its UTF-8 bytes. -/
def quote_plus (s : String) : String :=
  String.mk ((utf8Bytes s).map quoteByte).flatten

/-- urllib urlencode of a parameter mapping, modelled as an ordered list
of key/value entries: quote_plus each side, join entries with ampersands. -/
def urlencode (params : List (String × String)) : String :=
  String.intercalate "&" (params.map (fun p => quote_plus p.1 ++ "=" ++ quote_plus p.2))

/-- In-place update of a Python dict modelled as an ordered association
list: assign the value at an existing entry, or append a new entry. -/
def dictSet (d : List (String × String)) (k v : String) : List (String × String) :=
  match d with
  | [] => [(k, v)]
  | (k1, v1) :: rest => if k1 = k then (k, v) :: rest else (k1, v1) :: dictSet rest k v

/-- Value of a base64url (or standard base64) digit character; characters
outside the alphabet have no value. base64.urlsafe_b64decode first maps
hyphen to plus and underscore to slash, then decodes with the standard
alphabet, so both spellings of digits 62 and 63 are accepted. -/
def b64DigitVal (c : Char) : Option Nat :=
  if 'A' ≤ c ∧ c ≤ 'Z' then some (c.toNat - 65)
  else if 'a' ≤ c ∧ c ≤ 'z' then some (c.toNat - 97 + 26)
  else if '0' ≤ c ∧ c ≤ '9' then some (c.toNat - 48 + 52)
  else if c = '-' ∨ c = '+' then some 62
  else if c = '_' ∨ c = '/' then some 63
  else none

/-- Decodes a list of base64 digit values into bytes. A trailing group of
two or three digits yields one or two bytes; a trailing single digit is
an error. -/
def b64DecodeVals : List Nat → Option (List Nat)
  | v0 :: v1 :: v2 :: v3 :: rest =>
    match b64DecodeVals rest with
    | none => none
    | some bs =>
      let n := v0 * 262144 + v1 * 4096 + v2 * 64 + v3
      some (n / 65536 :: n / 256 % 256 :: n % 256 :: bs)
  | [v0, v1, v2] =>
    let n := v0 * 262144 + v1 * 4096 + v2 * 64
    some [n / 65536, n / 256 % 256]
  | [v0, v1] =>
    let n := v0 * 262144 + v1 * 4096
    some [n / 65536]
  | [_] => none
  | [] => some []

/-- base64.urlsafe_b64decode: alphabet characters and padding are kept
(anything else is discarded), the kept length must be a multiple of four,
and the digit values are decoded into bytes; none models the
binascii.Error raised on incorrect padding. -/
def urlsafe_b64decode (s : String) : Option (List Nat) :=
  let kept := s.toList.filter (fun c => (b64DigitVal c).isSome || c == '=')
  if kept.length % 4 ≠ 0 then none
  else b64DecodeVals (s.toList.filterMap b64DigitVal)

/-- The base64url digit alphabet. -/
def b64urlAlphabet : String :=
  "ABCDEFGHIJKLMNOPQRSTUVWXYZabcdefghijklmnopqrstuvwxyz0123456789-_"

/-- Digit character for a 6-bit value in the base64url alphabet. -/
def b64Digit (n : Nat) : Char :=
  b64urlAlphabet.toList.getD n 'A'

/-- Encodes bytes in groups of three into base64url characters with
padding, as base64.urlsafe_b64encode does. -/
def b64EncodeGroups : List Nat → List Char
  | b0 :: b1 :: b2 :: rest =>
    let n := b0 * 65536 + b1 * 256 + b2
    b64Digit (n / 262144) :: b64Digit (n / 4096 % 64) ::
      b64Digit (n / 64 % 64) :: b64Digit (n % 64) :: b64EncodeGroups rest
  | [b0, b1] =>
    let n := b0 * 65536 + b1 * 256
    [b64Digit (n / 262144), b64Digit (n / 4096 % 64), b64Digit (n / 64 % 64), '=']
  | [b0] =>
    let n := b0 * 65536
    [b64Digit (n / 262144), b64Digit (n / 4096 % 64), '=', '=']
  | [] => []

/-- base64.urlsafe_b64encode of a byte list. -/
def urlsafe_b64encode (bs : List Nat) : String :=
  String.mk (b64EncodeGroups bs)

/-- Reduction to a 32-bit word. -/
def w32 (n : Nat) : Nat := n % 4294967296

/-- Left rotation of a 32-bit word. -/
def rotl32 (x n : Nat) : Nat :=
  w32 ((x <<< n) ||| (x >>> (32 - n)))

/-- Big-endian 4-byte representation of a 32-bit word. -/
def beBytes4 (n : Nat) : List Nat :=
  [n >>> 24 % 256, n >>> 16 % 256, n >>> 8 % 256, n % 256]

/-- Big-endian 8-byte representation of a 64-bit length value. -/
def beBytes8 (n : Nat) : List Nat :=
  (List.range 8).map (fun i => n >>> (8 * (7 - i)) % 256)

/-- SHA-1 message padding: append the 0x80 byte, zero bytes up to 56 mod
64, then the bit length as 8 big-endian bytes. -/
def sha1Pad (msg : List Nat) : List Nat :=
  let z := (119 - msg.length % 64) % 64
  msg ++ [128] ++ List.replicate z 0 ++ beBytes8 (msg.length * 8)

/-- The sixteen big-endian 32-bit words of a 64-byte block. -/
def blockWords (block : List Nat) : List Nat :=
  (List.range 16).map (fun i =>
    block.getD (4 * i) 0 * 16777216 + block.getD (4 * i + 1) 0 * 65536 +
      block.getD (4 * i + 2) 0 * 256 + block.getD (4 * i + 3) 0)

/-- Extends the sixteen block words to the eighty SHA-1 schedule words. -/
def sha1Extend (w : List Nat) : List Nat :=
  (List.range 64).foldl
    (fun acc _ =>
      let n := acc.length
      acc ++ [rotl32 (acc.getD (n - 3) 0 ^^^ acc.getD (n - 8) 0 ^^^
        acc.getD (n - 14) 0 ^^^ acc.getD (n - 16) 0) 1])
    w

/-- One SHA-1 compression round. -/
def sha1Round (w : List Nat) (st : Nat × Nat × Nat × Nat × Nat) (i : Nat) :
    Nat × Nat × Nat × Nat × Nat :=
  let (a, b, c, d, e) := st
  let f :=
    if i < 20 then (b &&& c) ||| ((4294967295 ^^^ b) &&& d)
    else if i < 40 then b ^^^ c ^^^ d
    else if i < 60 then (b &&& c) ||| (b &&& d) ||| (c &&& d)
    else b ^^^ c ^^^ d
  let k :=
    if i < 20 then 1518500249
    else if i < 40 then 1859775393
    else if i < 60 then 2400959708
    else 3395469782
  let temp := w32 (rotl32 a 5 + f + e + k + w.getD i 0)
  (temp, a, rotl32 b 30, c, d)

/-- SHA-1 compression of one 64-byte block into the running state. -/
def sha1Compress (h : Nat × Nat × Nat × Nat × Nat) (block : List Nat) :
    Nat × Nat × Nat × Nat × Nat :=
  let w := sha1Extend (blockWords block)
  let (a, b, c, d, e) := (List.range 80).foldl (sha1Round w) h
  let (h0, h1, h2, h3, h4) := h
  (w32 (h0 + a), w32 (h1 + b), w32 (h2 + c), w32 (h3 + d), w32 (h4 + e))

/-- SHA-1 digest (20 bytes) of a byte list, as hashlib.sha1 computes. -/
def sha1 (msg : List Nat) : List Nat :=
  let padded := sha1Pad msg
  let st := (List.range (padded.length / 64)).foldl
    (fun h i => sha1Compress h ((padded.drop (64 * i)).take 64))
    (1732584193, 4023233417, 2562383102, 271733878, 3285377520)
  beBytes4 st.1 ++ beBytes4 st.2.1 ++ beBytes4 st.2.2.1 ++
    beBytes4 st.2.2.2.1 ++ beBytes4 st.2.2.2.2

/-- HMAC-SHA1 of a message under a key, as hmac.new(key, msg,
hashlib.sha1) computes: keys longer than the 64-byte block are hashed,
the key is zero-padded to the block size, and the inner and outer pads
are 0x36 and 0x5c. -/
def hmac_sha1 (key msg : List Nat) : List Nat :=
  let k0 := if key.length > 64 then sha1 key else key
  let k1 := k0 ++ List.replicate (64 - k0.length) 0
  sha1 ((k1.map (fun b => b ^^^ 92)) ++ sha1 ((k1.map (fun b => b ^^^ 54)) ++ msg))

/-- Translation of _hmac_sign (googlemaps/common.py lines 130-143): decode
the base64url secret into the HMAC key, sign the UTF-8 bytes of the string
with HMAC-SHA1 and base64url-encode the digest; none models the
binascii.Error that propagates when the secret fails to decode. -/
def _hmac_sign (secret s : String) : Option String :=
  match urlsafe_b64decode secret with
  | none => none
  | some keyBytes => some (urlsafe_b64encode (hmac_sha1 keyBytes (utf8Bytes s)))

/-- How a call to Context._auth_url ends: a returned string, a propagated
exception from secret decoding, or the implicit Python return of None
when no branch is taken. -/
inductive AuthOutcome where
  | ret (url : String)
  | raised
  | retNone
deriving DecidableEq, Repr

/-- Result of a call to Context._auth_url as a state transformer: the
outcome together with the params dict (mutated in place by the source)
and the receiver Context after the call. -/
structure AuthResult where
  outcome : AuthOutcome
  params : List (String × String)
  ctx : Context
deriving DecidableEq, Repr

/-- Translation of Context._auth_url (googlemaps/common.py lines 110-128).
With a truthy key, the key is assigned into params and the urlencoded
query appended to the path; otherwise, with truthy client_id and
client_secret, the client is assigned into params, the signed path built
and the HMAC signature appended; otherwise the method falls through,
returning None. The returned AuthResult carries the mutated params and
the (unmodified) receiver. -/
def Context._auth_url (ctx : Context) (path : String) (params : List (String × String)) :
    AuthResult :=
  if truthyStr ctx.key then
    { outcome := .ret (path ++ "?" ++ urlencode (dictSet params "key" (ctx.key.getD ""))),
      params := dictSet params "key" (ctx.key.getD ""), ctx := ctx }
  else if truthyStr ctx.client_id && truthyStr ctx.client_secret then
    -- the source binds params and the signed path as locals; they are
    -- pure, so the uses below inline the same expressions
    match _hmac_sign (ctx.client_secret.getD "")
        (path ++ "?" ++ urlencode (dictSet params "client" (ctx.client_id.getD ""))) with
    | none =>
      { outcome := .raised, params := dictSet params "client" (ctx.client_id.getD ""), ctx := ctx }
    | some sig =>
      { outcome := .ret (path ++ "?" ++ urlencode (dictSet params "client" (ctx.client_id.getD "")) ++
          "&signature=" ++ sig),
        params := dictSet params "client" (ctx.client_id.getD ""), ctx := ctx }
  else
    { outcome := .retNone, params := params, ctx := ctx }

/-- Reference computation of the enterprise signed URL, following the
specification text: inject client into params, build the query string to
form the signed path, compute the HMAC-SHA1 of the UTF-8 bytes of the
signed path under the base64url-decoded secret, base64url-encode the
digest and append it as the signature parameter. -/
def referenceSignedUrl (client_id client_secret path : String)
    (params : List (String × String)) : Option String :=
  let signedPath := path ++ "?" ++ urlencode (dictSet params "client" client_id)
  match urlsafe_b64decode client_secret with
  | none => none
  | some keyBytes =>
    some (signedPath ++ "&signature=" ++
      urlsafe_b64encode (hmac_sha1 keyBytes (utf8Bytes signedPath)))

/-- Exception value returned by the remote API, mirroring the ApiError
class (googlemaps/common.py lines 205-215). -/
structure ApiError where
  status : String
  message : Option String
deriving DecidableEq, Repr

/-- String form of an ApiError, translating its double-underscore str
method: the status alone, or the status followed by the message in
parentheses. -/
def ApiError.str (e : ApiError) : String :=
  match e.message with
  | none => e.status
  | some m => e.status ++ " (" ++ m ++ ")"

/-- Parsed JSON body of a response: the status string, the optional
error_message entry, and the remaining payload entries. -/
structure Body where
  status : String
  error_message : Option String
  payload : List (String × String)
deriving DecidableEq, Repr

/-- One HTTP response as seen by _get: the status code and the parsed
JSON body, none standing for a body that resp.json() fails to parse. -/
structure Response where
  status_code : Nat
  body : Option Body
deriving DecidableEq, Repr

/-- One attempt of the transport stub: the clock value when the attempt
starts (datetime.now() at entry to _get), the clock value after the
response arrives (datetime.now() in the budget check), and the response. -/
structure Attempt where
  startTime : Int
  endTime : Int
  resp : Response
deriving DecidableEq, Repr

/-- How a logical call to _get resolves: a returned body, an HTTPError
raised by raise_for_status carrying the raw status code, an ApiError, a
ValueError from resp.json() on an unparseable body, or pending when the
supplied attempt trace is exhausted while the code would issue a further
request (recording the arguments of that further recursive call). -/
inductive GetOutcome where
  | ok (body : Body)
  | httpError (code : Nat)
  | apiError (e : ApiError)
  | jsonError
  | pending (first_request_time : Option Int) (retry_counter : Nat)
deriving DecidableEq, Repr

/-- Translation of _get (googlemaps/common.py lines 145-202) over a
transport stub supplying one timed response per attempt. The first
attempt fixes first_request_time when unset; a status code of 500, 503 or
504 within the retry budget recurses with the counter incremented and the
first-attempt time passed unchanged; other non-200 codes go through
raise_for_status, which raises only for codes in the 400-599 error range
and otherwise lets execution continue to body parsing; a parsed body with
status OK or ZERO_RESULTS is returned, OVER_QUERY_LIMIT within budget
recurses, and anything else raises ApiError with the error_message entry
when present. -/
def _get (ctx : Context) (trace : List Attempt) (first_request_time : Option Int)
    (retry_counter : Nat) : GetOutcome :=
  match trace with
  | [] => .pending first_request_time retry_counter
  | a :: rest =>
    let first := match first_request_time with
      | none => a.startTime
      | some t => t
    -- exceeded_timeout is computed once in the source; it is pure, so the
    -- two uses below inline the same expression.
    if a.resp.status_code ∈ ([500, 503, 504] : List Nat) ∧
        ¬(a.endTime - first > ctx.retry_timeout) then
      _get ctx rest (some first) (retry_counter + 1)
    else if a.resp.status_code ≠ 200 ∧ 400 ≤ a.resp.status_code ∧ a.resp.status_code < 600 then
      .httpError a.resp.status_code
    else
      match a.resp.body with
      | none => .jsonError
      | some body =>
        if body.status = "OK" ∨ body.status = "ZERO_RESULTS" then
          .ok body
        else if body.status = "OVER_QUERY_LIMIT" ∧ ¬(a.endTime - first > ctx.retry_timeout) then
          _get ctx rest (some first) (retry_counter + 1)
        else
          match body.error_message with
          | some m => .apiError { status := body.status, message := some m }
          | none => .apiError { status := body.status, message := none }

/-- Pre-jitter backoff delay in seconds computed at googlemaps/common.py
line 170 for a retry attempt. -/
def delay_seconds (retry_counter : Nat) : ℚ :=
  (1 / 2) * (3 / 2) ^ (retry_counter - 1)

/-- Sleep performed at the start of an attempt (googlemaps/common.py
lines 166-173): none for the first attempt, otherwise the delay jittered
by the sample r of random.random(). -/
def sleepTime (retry_counter : Nat) (r : ℚ) : Option ℚ :=
  if retry_counter > 0 then some (delay_seconds retry_counter * (r + 1 / 2)) else none

/-! Helper lemmas shared by the claim theorems. -/

theorem init_ok_fieldsEq (k cid cs : Option String) (t ct rt : Option Int)
    (rtt : Int) (vok : Bool) (ctx : Context)
    (h : Context.init k cid cs t ct rt rtt vok = .ok ctx) :
    ctx.key = k ∧ ctx.client_id = cid ∧ ctx.client_secret = cs := by
  unfold Context.init at h
  split_ifs at h <;>
    first
      | exact Except.noConfusion h
      | (simp only [Except.ok.injEq] at h; subst h; exact ⟨rfl, rfl, rfl⟩)

theorem init_ok_credentials_args (k cid cs : Option String) (t ct rt : Option Int)
    (rtt : Int) (vok : Bool) (ctx : Context)
    (h : Context.init k cid cs t ct rt rtt vok = .ok ctx) :
    truthyStr k = true ∨ (truthyStr cid = true ∧ truthyStr cs = true) := by
  by_cases hk : truthyStr k = true
  · exact Or.inl hk
  · by_cases hpair : (truthyStr cs && truthyStr cid) = true
    · rcases Bool.and_eq_true_iff.mp hpair with ⟨hcs, hcid⟩
      exact Or.inr ⟨hcid, hcs⟩
    · exfalso
      rw [Bool.not_eq_true] at hk hpair
      unfold Context.init at h
      rw [if_pos (by rw [hk, hpair]; rfl)] at h
      exact Except.noConfusion h

theorem init_ok_credentials (k cid cs : Option String) (t ct rt : Option Int)
    (rtt : Int) (vok : Bool) (ctx : Context)
    (h : Context.init k cid cs t ct rt rtt vok = .ok ctx) :
    truthyStr ctx.key = true ∨
      (truthyStr ctx.client_id = true ∧ truthyStr ctx.client_secret = true) := by
  obtain ⟨hk, hcid, hcs⟩ := init_ok_fieldsEq k cid cs t ct rt rtt vok ctx h
  rw [hk, hcid, hcs]
  exact init_ok_credentials_args k cid cs t ct rt rtt vok ctx h

theorem lookup_dictSet (d : List (String × String)) (k v : String) :
    List.lookup k (dictSet d k v) = some v := by
  induction d with
  | nil => simp [dictSet, List.lookup]
  | cons p rest ih =>
    obtain ⟨k1, v1⟩ := p
    by_cases hk : k1 = k
    · simp [dictSet, hk, List.lookup]
    · have hne : (k == k1) = false := beq_eq_false_iff_ne.mpr (Ne.symm hk)
      simp [dictSet, hk, List.lookup, ih, hne]

/-! Theorems for the claims. -/

/-- C2: Context construction succeeds for every input providing exactly
one credential mode (an AIza-prefixed API key, or a client_id and
client_secret pair) with at most one timeout form, and raises ValueError
for every invalid combination: no credentials, an API key without the
required prefix, or both timeout forms supplied. An input counts as
supplied when it is Python-truthy; the requests version check is taken to
pass. -/
theorem claim_c2_construction (k cid cs : Option String) (t ct rt : Option Int)
    (rtt : Int) :
    (((truthyStr k = true ∧ startswith (k.getD "") "AIza" = true ∧
        ¬(truthyStr cid = true ∧ truthyStr cs = true)) ∨
      (truthyStr cid = true ∧ truthyStr cs = true ∧ truthyStr k = false)) →
     ¬(truthyInt t = true ∧ (truthyInt ct = true ∨ truthyInt rt = true)) →
     initOk (Context.init k cid cs t ct rt rtt true) = true) ∧
    (truthyStr k = false ∧ ¬(truthyStr cs = true ∧ truthyStr cid = true) →
     isValueError (Context.init k cid cs t ct rt rtt true) = true) ∧
    (truthyStr k = true ∧ startswith (k.getD "") "AIza" = false →
     isValueError (Context.init k cid cs t ct rt rtt true) = true) ∧
    (truthyInt t = true ∧ truthyInt ct = true ∧ truthyInt rt = true →
     isValueError (Context.init k cid cs t ct rt rtt true) = true) := by
  refine ⟨?_, ?_, ?_, ?_⟩
  · intro hmode htimeout
    have hg3 : (truthyInt t && (truthyInt ct || truthyInt rt)) = false := by
      cases ht : truthyInt t <;> cases hct : truthyInt ct <;> cases hrt : truthyInt rt <;>
        simp_all
    rcases hmode with ⟨hk, hpre, _⟩ | ⟨hcid, hcs, hkf⟩
    · simp only [Context.init, hk, hpre, hg3, Bool.not_true, Bool.true_and,
        Bool.false_and, Bool.and_false, if_false, ite_false]
      split_ifs <;> simp_all [initOk]
    · simp only [Context.init, hkf, hcid, hcs, hg3, Bool.not_false, Bool.and_true,
        Bool.true_and, Bool.false_and, Bool.not_true, Bool.and_false, ite_false]
      split_ifs <;> simp_all [initOk]
  · intro hnone
    obtain ⟨hkf, hp⟩ := hnone
    have hpair : (truthyStr cs && truthyStr cid) = false := by
      cases hcs : truthyStr cs <;> cases hcid : truthyStr cid <;> simp_all
    simp [Context.init, hkf, hpair, isValueError]
  · intro hbad
    obtain ⟨hk, hpre⟩ := hbad
    simp [Context.init, hk, hpre, isValueError]
  · intro hboth
    obtain ⟨ht, hct, hrt⟩ := hboth
    unfold Context.init isValueError
    split_ifs <;> simp_all

/-- Witness for C2 at a concrete valid input. -/
theorem claim_c2_construction_witness :
    initOk (Context.init (some "AIzaHarness") none none none none none 60 true) = true :=
  (claim_c2_construction (some "AIzaHarness") none none none none none 60).1
    (by decide) (by decide)

/-- C7 counterexample: construction succeeds with an AIza-prefixed key
and a complete enterprise pair supplied together, and the resulting
Context has both credential modes set, refuting exactly-one-mode. -/
theorem claim_c7_counterexample :
    Context.init (some "AIzaBoth") (some "gme-client") (some "AAAA") none none none 60 true =
      .ok { key := some "AIzaBoth", client_id := some "gme-client",
            client_secret := some "AAAA", timeout := .single none, retry_timeout := 60 } ∧
    truthyStr
      (Context.mk (some "AIzaBoth") (some "gme-client") (some "AAAA")
        (.single none) 60).key = true ∧
    truthyStr
      (Context.mk (some "AIzaBoth") (some "gme-client") (some "AAAA")
        (.single none) 60).client_id = true ∧
    truthyStr
      (Context.mk (some "AIzaBoth") (some "gme-client") (some "AAAA")
        (.single none) 60).client_secret = true :=
  ⟨rfl, rfl, rfl, rfl⟩

/-- C7 amended: every Context that passes construction has at least one
credential mode active (API-key mode, or enterprise mode with both
client fields set) — the two modes may be active simultaneously — and
construction raises ValueError when neither mode is supplied. -/
theorem claim_c7_amended_modes (k cid cs : Option String) (t ct rt : Option Int)
    (rtt : Int) (vok : Bool) (ctx : Context) :
    (Context.init k cid cs t ct rt rtt vok = .ok ctx →
      (truthyStr ctx.key = true ∨
        (truthyStr ctx.client_id = true ∧ truthyStr ctx.client_secret = true))) ∧
    (truthyStr k = false ∧ ¬(truthyStr cs = true ∧ truthyStr cid = true) →
      isValueError (Context.init k cid cs t ct rt rtt vok) = true) := by
  constructor
  · exact init_ok_credentials k cid cs t ct rt rtt vok ctx
  · intro hnone
    obtain ⟨hkf, hp⟩ := hnone
    have hpair : (truthyStr cs && truthyStr cid) = false := by
      cases hcs : truthyStr cs <;> cases hcid : truthyStr cid <;> simp_all
    simp [Context.init, hkf, hpair, isValueError]

/-- Witness for the amended C7 at concrete inputs: a key-mode Context
passes with an active mode, and construction with no credentials raises
ValueError. -/
theorem claim_c7_amended_modes_witness :
    (truthyStr (Context.mk (some "AIzaW") none none (TimeoutVal.single none) 60).key = true ∨
      (truthyStr (Context.mk (some "AIzaW") none none (TimeoutVal.single none) 60).client_id = true ∧
       truthyStr (Context.mk (some "AIzaW") none none (TimeoutVal.single none) 60).client_secret = true)) ∧
    isValueError (Context.init none none none none none none 60 true) = true :=
  ⟨(claim_c7_amended_modes (some "AIzaW") none none none none none 60 true
      (Context.mk (some "AIzaW") none none (TimeoutVal.single none) 60)).1 rfl,
   (claim_c7_amended_modes none none none none none none 60 true
      (Context.mk (some "AIzaW") none none (TimeoutVal.single none) 60)).2 (by decide)⟩

/-- C8: signing is deterministic — two calls to _auth_url with the same
Context, path and params (in the same entry order) yield identical
results, the embedding being a pure function of exactly these inputs;
moreover the caller's Context is returned unmodified. -/
theorem claim_c8_deterministic (ctx : Context) (path : String)
    (params : List (String × String)) :
    Context._auth_url ctx path params = Context._auth_url ctx path params ∧
    (Context._auth_url ctx path params).ctx = ctx := by
  refine ⟨rfl, ?_⟩
  unfold Context._auth_url
  split_ifs
  · rfl
  · split <;> rfl
  · rfl

/-- C9: for every Context that passes construction, _auth_url never ends
in the implicit fall-through returning None, because construction
guarantees a truthy key or a complete truthy enterprise pair. -/
theorem claim_c9_no_fallthrough (k cid cs : Option String) (t ct rt : Option Int)
    (rtt : Int) (vok : Bool) (ctx : Context) (path : String)
    (params : List (String × String))
    (h : Context.init k cid cs t ct rt rtt vok = .ok ctx) :
    (Context._auth_url ctx path params).outcome ≠ AuthOutcome.retNone := by
  have hcred := init_ok_credentials k cid cs t ct rt rtt vok ctx h
  unfold Context._auth_url
  split_ifs with h1 h2
  · simp
  · split <;> simp
  · rcases hcred with hk | ⟨hcid, hcs⟩
    · exact absurd hk h1
    · rw [Bool.not_eq_true] at h2
      rw [hcid, hcs] at h2
      exact absurd h2 (by simp)

/-- Witness for C9 at a concrete constructed Context. -/
theorem claim_c9_no_fallthrough_witness :
    (Context._auth_url (Context.mk (some "AIzaW") none none (TimeoutVal.single none) 60)
      "/maps/api/geocode/json" []).outcome ≠ AuthOutcome.retNone :=
  claim_c9_no_fallthrough (some "AIzaW") none none none none none 60 true
    (Context.mk (some "AIzaW") none none (TimeoutVal.single none) 60)
    "/maps/api/geocode/json" [] rfl

/-- C10: _auth_url mutates the caller's params mapping — assigning the
key entry in API-key mode and the client entry in enterprise mode — and
returns the Context itself unmodified. -/
theorem claim_c10_params_mutation (ctx : Context) (path : String)
    (params : List (String × String))
    (h : truthyStr ctx.key = true ∨
      (truthyStr ctx.client_id = true ∧ truthyStr ctx.client_secret = true)) :
    (Context._auth_url ctx path params).ctx = ctx ∧
    (truthyStr ctx.key = true →
      (Context._auth_url ctx path params).params = dictSet params "key" (ctx.key.getD "") ∧
      List.lookup "key" (Context._auth_url ctx path params).params = some (ctx.key.getD "")) ∧
    (truthyStr ctx.key = false →
      (Context._auth_url ctx path params).params = dictSet params "client" (ctx.client_id.getD "") ∧
      List.lookup "client" (Context._auth_url ctx path params).params = some (ctx.client_id.getD "")) := by
  refine ⟨?_, ?_, ?_⟩
  · unfold Context._auth_url
    split_ifs
    · rfl
    · split <;> rfl
    · rfl
  · intro hk
    unfold Context._auth_url
    rw [if_pos hk]
    exact ⟨rfl, lookup_dictSet params "key" (ctx.key.getD "")⟩
  · intro hkf
    rcases h with hk | ⟨hcid, hcs⟩
    · rw [hkf] at hk; exact absurd hk (by simp)
    · unfold Context._auth_url
      rw [if_neg (by rw [hkf]; simp), if_pos (by rw [hcid, hcs]; rfl)]
      constructor
      · split <;> rfl
      · have hlk := lookup_dictSet params "client" (ctx.client_id.getD "")
        split <;> exact hlk

/-- Witness for C10 at a concrete enterprise Context. -/
theorem claim_c10_params_mutation_witness :
    (Context._auth_url (Context.mk none (some "gme-client") (some "AAAA") (TimeoutVal.single none) 60)
      "/p" []).ctx = Context.mk none (some "gme-client") (some "AAAA") (TimeoutVal.single none) 60 ∧
    (truthyStr (Context.mk none (some "gme-client") (some "AAAA") (TimeoutVal.single none) 60).key = true →
      (Context._auth_url (Context.mk none (some "gme-client") (some "AAAA") (TimeoutVal.single none) 60)
        "/p" []).params = dictSet [] "key"
          ((Context.mk none (some "gme-client") (some "AAAA") (TimeoutVal.single none) 60).key.getD "") ∧
      List.lookup "key" (Context._auth_url (Context.mk none (some "gme-client") (some "AAAA")
        (TimeoutVal.single none) 60) "/p" []).params =
        some ((Context.mk none (some "gme-client") (some "AAAA") (TimeoutVal.single none) 60).key.getD "")) ∧
    (truthyStr (Context.mk none (some "gme-client") (some "AAAA") (TimeoutVal.single none) 60).key = false →
      (Context._auth_url (Context.mk none (some "gme-client") (some "AAAA") (TimeoutVal.single none) 60)
        "/p" []).params = dictSet [] "client"
          ((Context.mk none (some "gme-client") (some "AAAA") (TimeoutVal.single none) 60).client_id.getD "") ∧
      List.lookup "client" (Context._auth_url (Context.mk none (some "gme-client") (some "AAAA")
        (TimeoutVal.single none) 60) "/p" []).params =
        some ((Context.mk none (some "gme-client") (some "AAAA") (TimeoutVal.single none) 60).client_id.getD "")) :=
  claim_c10_params_mutation
    (Context.mk none (some "gme-client") (some "AAAA") (TimeoutVal.single none) 60) "/p" []
    (Or.inr ⟨by decide, by decide⟩)

/-- C3: in enterprise mode (no truthy key, truthy client_id and
client_secret), _auth_url returns the path, the urlencoded params with
the client entry added, and the appended signature, where the signature
is the base64url encoding of the HMAC-SHA1 digest of the UTF-8 bytes of
the path-plus-query string under the base64url-decoded client_secret;
this coincides with the independent reference computation
referenceSignedUrl. -/
theorem claim_c3_enterprise_signing (ctx : Context) (path : String)
    (params : List (String × String)) (keyBytes : List Nat)
    (hk : truthyStr ctx.key = false)
    (hcid : truthyStr ctx.client_id = true)
    (hcs : truthyStr ctx.client_secret = true)
    (hdec : urlsafe_b64decode (ctx.client_secret.getD "") = some keyBytes) :
    (Context._auth_url ctx path params).outcome =
      AuthOutcome.ret (path ++ "?" ++
        urlencode (dictSet params "client" (ctx.client_id.getD "")) ++ "&signature=" ++
        urlsafe_b64encode (hmac_sha1 keyBytes (utf8Bytes (path ++ "?" ++
          urlencode (dictSet params "client" (ctx.client_id.getD "")))))) ∧
    referenceSignedUrl (ctx.client_id.getD "") (ctx.client_secret.getD "") path params =
      some (path ++ "?" ++
        urlencode (dictSet params "client" (ctx.client_id.getD "")) ++ "&signature=" ++
        urlsafe_b64encode (hmac_sha1 keyBytes (utf8Bytes (path ++ "?" ++
          urlencode (dictSet params "client" (ctx.client_id.getD "")))))) := by
  constructor
  · unfold Context._auth_url
    rw [if_neg (by rw [hk]; simp), if_pos (by rw [hcid, hcs]; rfl)]
    unfold _hmac_sign
    rw [hdec]
  · unfold referenceSignedUrl
    rw [hdec]

/-- Witness for C3 at a concrete enterprise Context with the secret
AAAA, which decodes to three zero bytes. -/
theorem claim_c3_enterprise_signing_witness :
    (Context._auth_url (Context.mk none (some "gme-id") (some "AAAA") (TimeoutVal.single none) 60)
        "/p" [("address", "x")]).outcome =
      AuthOutcome.ret ("/p" ++ "?" ++
        urlencode (dictSet [("address", "x")] "client" "gme-id") ++ "&signature=" ++
        urlsafe_b64encode (hmac_sha1 [0, 0, 0] (utf8Bytes ("/p" ++ "?" ++
          urlencode (dictSet [("address", "x")] "client" "gme-id"))))) ∧
    referenceSignedUrl "gme-id" "AAAA" "/p" [("address", "x")] =
      some ("/p" ++ "?" ++
        urlencode (dictSet [("address", "x")] "client" "gme-id") ++ "&signature=" ++
        urlsafe_b64encode (hmac_sha1 [0, 0, 0] (utf8Bytes ("/p" ++ "?" ++
          urlencode (dictSet [("address", "x")] "client" "gme-id"))))) :=
  claim_c3_enterprise_signing
    (Context.mk none (some "gme-id") (some "AAAA") (TimeoutVal.single none) 60)
    "/p" [("address", "x")] [0, 0, 0] rfl rfl rfl (by decide)

/-- C4: for every retry attempt (counter at least 1) the pre-jitter
delay is 0.5 times 1.5 to the counter minus one — 0.5, 0.75 and 1.125
seconds for counters 1, 2, 3 — and the realized sleep, jittered by the
uniform sample r of random.random() in [0, 1), lies between 0.5 and 1.5
times that delay; the first attempt (counter 0) performs no sleep. -/
theorem claim_c4_backoff (rc : Nat) (r : ℚ) (h1 : 1 ≤ rc) (hr0 : 0 ≤ r) (hr1 : r < 1) :
    delay_seconds rc = 1 / 2 * (3 / 2) ^ (rc - 1) ∧
    delay_seconds 1 = 1 / 2 ∧ delay_seconds 2 = 3 / 4 ∧ delay_seconds 3 = 9 / 8 ∧
    sleepTime rc r = some (delay_seconds rc * (r + 1 / 2)) ∧
    1 / 2 * delay_seconds rc ≤ delay_seconds rc * (r + 1 / 2) ∧
    delay_seconds rc * (r + 1 / 2) < 3 / 2 * delay_seconds rc ∧
    sleepTime 0 r = none := by
  have hd : (0 : ℚ) < delay_seconds rc := by
    unfold delay_seconds
    positivity
  refine ⟨rfl, by norm_num [delay_seconds], by norm_num [delay_seconds],
    by norm_num [delay_seconds], ?_, ?_, ?_, rfl⟩
  · unfold sleepTime
    rw [if_pos (show rc > 0 from h1)]
  · nlinarith [mul_nonneg hd.le hr0]
  · nlinarith [mul_pos hd (by linarith : (0 : ℚ) < 1 - r)]

/-- Witness for C4 at counter 1 and jitter sample 0. -/
theorem claim_c4_backoff_witness :
    delay_seconds 1 = 1 / 2 * (3 / 2) ^ (1 - 1) ∧
    delay_seconds 1 = 1 / 2 ∧ delay_seconds 2 = 3 / 4 ∧ delay_seconds 3 = 9 / 8 ∧
    sleepTime 1 0 = some (delay_seconds 1 * (0 + 1 / 2)) ∧
    1 / 2 * delay_seconds 1 ≤ delay_seconds 1 * (0 + 1 / 2) ∧
    delay_seconds 1 * (0 + 1 / 2) < 3 / 2 * delay_seconds 1 ∧
    sleepTime 0 0 = none :=
  claim_c4_backoff 1 0 (le_refl 1) (le_refl 0) zero_lt_one

/-- C5: an HTTP 200 response whose parsed body has status OK or
ZERO_RESULTS makes _get return that body unchanged at once, and the
first attempt (counter 0) performs no sleep. -/
theorem claim_c5_success_passthrough (ctx : Context) (a : Attempt)
    (rest : List Attempt) (first : Option Int) (rc : Nat) (b : Body) (r : ℚ)
    (h200 : a.resp.status_code = 200)
    (hb : a.resp.body = some b)
    (hst : b.status = "OK" ∨ b.status = "ZERO_RESULTS") :
    _get ctx (a :: rest) first rc = GetOutcome.ok b ∧ sleepTime 0 r = none := by
  refine ⟨?_, rfl⟩
  unfold _get
  rw [if_neg (by rw [h200]; simp), if_neg (by rw [h200]; simp), hb]
  simp only
  rw [if_pos hst]

/-- Witness for C5 at a concrete 200 OK response. -/
theorem claim_c5_success_passthrough_witness :
    _get (Context.mk (some "AIzaW") none none (TimeoutVal.single none) 60)
        [Attempt.mk 0 1 (Response.mk 200 (some (Body.mk "OK" none [("results", "r1")])))]
        none 0 =
      GetOutcome.ok (Body.mk "OK" none [("results", "r1")]) ∧
    sleepTime 0 0 = none :=
  claim_c5_success_passthrough
    (Context.mk (some "AIzaW") none none (TimeoutVal.single none) 60)
    (Attempt.mk 0 1 (Response.mk 200 (some (Body.mk "OK" none [("results", "r1")]))))
    [] none 0 (Body.mk "OK" none [("results", "r1")]) 0 rfl rfl (Or.inl rfl)

/-- C6: an HTTP 200 response whose parsed body status is none of OK,
ZERO_RESULTS and OVER_QUERY_LIMIT makes _get raise ApiError at once with
the body status and its error_message entry when present; the string
form of an ApiError is the status alone without a message, and the
status followed by the parenthesized message with one. -/
theorem claim_c6_fatal_api_error (ctx : Context) (a : Attempt)
    (rest : List Attempt) (first : Option Int) (rc : Nat) (b : Body) (st m : String)
    (h200 : a.resp.status_code = 200)
    (hb : a.resp.body = some b)
    (h1 : b.status ≠ "OK") (h2 : b.status ≠ "ZERO_RESULTS")
    (h3 : b.status ≠ "OVER_QUERY_LIMIT") :
    _get ctx (a :: rest) first rc =
      GetOutcome.apiError (ApiError.mk b.status b.error_message) ∧
    ApiError.str (ApiError.mk st none) = st ∧
    ApiError.str (ApiError.mk st (some m)) = st ++ " (" ++ m ++ ")" := by
  refine ⟨?_, rfl, rfl⟩
  unfold _get
  rw [if_neg (by rw [h200]; simp), if_neg (by rw [h200]; simp), hb]
  simp only
  rw [if_neg (by simp [h1, h2]), if_neg (by simp [h3])]
  cases hm : b.error_message <;> simp [hm]

/-- Witness for C6 at a concrete INVALID_REQUEST response with a
message. -/
theorem claim_c6_fatal_api_error_witness :
    _get (Context.mk (some "AIzaW") none none (TimeoutVal.single none) 60)
        [Attempt.mk 0 1 (Response.mk 200 (some (Body.mk "INVALID_REQUEST" (some "bad param") [])))]
        none 0 =
      GetOutcome.apiError (ApiError.mk "INVALID_REQUEST" (some "bad param")) ∧
    ApiError.str (ApiError.mk "NOT_FOUND" none) = "NOT_FOUND" ∧
    ApiError.str (ApiError.mk "NOT_FOUND" (some "oops")) = "NOT_FOUND" ++ " (" ++ "oops" ++ ")" :=
  claim_c6_fatal_api_error
    (Context.mk (some "AIzaW") none none (TimeoutVal.single none) 60)
    (Attempt.mk 0 1 (Response.mk 200 (some (Body.mk "INVALID_REQUEST" (some "bad param") []))))
    [] none 0 (Body.mk "INVALID_REQUEST" (some "bad param") []) "NOT_FOUND" "oops"
    rfl rfl (by decide) (by decide) (by decide)

/-- C1 counterexample: an HTTP 304 response carrying a JSON body with
status OVER_QUERY_LIMIT is, per the claim, neither retryable (304 is not
in {500, 503, 504} and is not an HTTP 200 body) nor a success, so the
claim requires the failure to surface; the code instead retries — the
single-attempt trace ends pending a further request with the counter
incremented — and with a following 200 OK response the logical call
returns success, surfacing no failure at all. -/
theorem claim_c1_counterexample :
    _get (Context.mk (some "AIzaW") none none (TimeoutVal.single none) 60)
        [Attempt.mk 0 0 (Response.mk 304 (some (Body.mk "OVER_QUERY_LIMIT" none [])))]
        none 0 =
      GetOutcome.pending (some 0) 1 ∧
    _get (Context.mk (some "AIzaW") none none (TimeoutVal.single none) 60)
        [Attempt.mk 0 0 (Response.mk 304 (some (Body.mk "OVER_QUERY_LIMIT" none []))),
         Attempt.mk 1 1 (Response.mk 200 (some (Body.mk "OK" none [])))]
        none 0 =
      GetOutcome.ok (Body.mk "OK" none []) := by
  constructor <;> decide

/-- C1 amended: one attempt of _get retries — recursing with the
retry counter incremented and the first-attempt timestamp passed
unchanged — exactly when the elapsed time since the first attempt is at
most ctx.retry_timeout and the outcome is an HTTP status in
{500, 503, 504}, or a response outside the 400-599 error range
(including 200) whose JSON body has status OVER_QUERY_LIMIT. Otherwise
the last outcome surfaces as follows: a status inside 400-599 raises the
transport error with the raw status (this covers 500/503/504 once the
budget is exhausted); any other status is classified by its parsed body
alone — OK and ZERO_RESULTS bodies are returned as success,
and every other body raises ApiError with the body status and its
error_message when present (in particular OVER_QUERY_LIMIT once the
budget is exhausted). A non-200 status outside 400-599 therefore does
not surface a transport error, contrary to the original claim. -/
theorem claim_c1_amended_retry_rule (ctx : Context) (a : Attempt)
    (rest : List Attempt) (first : Option Int) (rc : Nat) :
    _get ctx (a :: rest) first rc =
      if (a.resp.status_code ∈ ([500, 503, 504] : List Nat) ∨
           (¬(400 ≤ a.resp.status_code ∧ a.resp.status_code < 600) ∧
             a.resp.body.map Body.status = some "OVER_QUERY_LIMIT")) ∧
         a.endTime - first.getD a.startTime ≤ ctx.retry_timeout then
        _get ctx rest (some (first.getD a.startTime)) (rc + 1)
      else if 400 ≤ a.resp.status_code ∧ a.resp.status_code < 600 then
        GetOutcome.httpError a.resp.status_code
      else
        match a.resp.body with
        | none => GetOutcome.jsonError
        | some b =>
          if b.status = "OK" ∨ b.status = "ZERO_RESULTS" then GetOutcome.ok b
          else GetOutcome.apiError (ApiError.mk b.status b.error_message) := by
  obtain ⟨st, en, sc, ob⟩ := a
  cases first with
  | none =>
    simp only [_get, Option.getD_none]
    by_cases hA : sc ∈ ([500, 503, 504] : List Nat) <;>
      by_cases hE : en - st > ctx.retry_timeout <;>
        rcases ob with _ | b <;> split_ifs <;> simp_all <;>
          first
            | omega
            | (split_ifs <;>
                first
                  | rfl
                  | (cases hb : b.error_message <;> simp [hb]))
  | some t =>
    simp only [_get, Option.getD_some]
    by_cases hA : sc ∈ ([500, 503, 504] : List Nat) <;>
      by_cases hE : en - t > ctx.retry_timeout <;>
        rcases ob with _ | b <;> split_ifs <;> simp_all <;>
          first
            | omega
            | (split_ifs <;>
                first
                  | rfl
                  | (cases hb : b.error_message <;> simp [hb]))

end GMaps

